import Mathlib

/-!
Verification of the RPoke concurrent TCP port scanner (src/main.rs).

The Rust source is embedded shallowly:

* Pure matcher functions (`ftp_service_detection`, …) become Lean
  functions on `String`. Rust `str::contains` and `str::starts_with`
  are modelled by substring / list-prefix search on the decoded
  character sequence; `String::from_utf8_lossy` of the 1024-byte
  zero-initialised read buffer is modelled at the decoded-character
  level (the responses exercised here are ASCII and NUL bytes, on
  which the lossy decoding is the identity).
* The `regex` crate calls in `extract_version` use seven fixed,
  hand-authored patterns built from literals and the character
  classes `\d`, `\w`, `[\d.]`, `[\w.-]` under a greedy `+`.  Each
  compiled pattern is embedded as a `Pat` value, and the crate's
  leftmost-first matching is implemented by an executable
  greedy-with-backtracking engine (`matchAtoms` / `findFirst`),
  verified below against a declarative matching relation.
* The effectful connect/write/read sequence of `scan_port` takes the
  network behaviour as an explicit `NetOutcome` argument; the
  `buffer_unordered(num_threads)` bounded fan-out of `scan_ports`
  is modelled as a small-step scheduler relation `SchedStep`.
-/

namespace RPoke

/-- The character classes occurring in the source's version patterns. -/
inductive CharClass where
  | digit
  | word
  | digitDot
  | wordDotDash
deriving DecidableEq

/-- Membership in a character class, as the regex crate interprets it on
the ASCII range: `\d` is `0-9`, `\w` is alphanumeric plus underscore. -/
def CharClass.mem : CharClass → Char → Bool
  | .digit, c => c.isDigit
  | .word, c => c.isAlphanum || c == '_'
  | .digitDot, c => c.isDigit || c == '.'
  | .wordDotDash, c => c.isAlphanum || c == '_' || c == '.' || c == '-'

/-- One atom of a version pattern: a literal character, or a character
class under a greedy `+` quantifier. -/
inductive Atom where
  | lit (c : Char)
  | plus (cc : CharClass)
deriving DecidableEq

/-- A compiled version pattern: a sequence of atoms. -/
abbrev Pat := List Atom

/-- A run of literal atoms, used to spell out the fixed patterns. -/
def litStr (s : String) : Pat := s.data.map Atom.lit

/-- Compiled form of the source pattern `[\d.]+` (FTP, SMTP, POP3,
SMTPS, POP3S version extraction). -/
def patDigitDot : Pat := [Atom.plus CharClass.digitDot]

/-- Compiled form of the source pattern `SSH-\d+\.\d+-[\w.-]+`. -/
def patSsh : Pat :=
  litStr "SSH-" ++ [Atom.plus CharClass.digit, Atom.lit '.',
    Atom.plus CharClass.digit, Atom.lit '-', Atom.plus CharClass.wordDotDash]

/-- Compiled form of the source pattern `Apache/[\d.]+`. -/
def patApache : Pat := litStr "Apache/" ++ [Atom.plus CharClass.digitDot]

/-- Compiled form of the source pattern `nginx/[\d.]+`. -/
def patNginx : Pat := litStr "nginx/" ++ [Atom.plus CharClass.digitDot]

/-- Compiled form of the source pattern `IMAP\d+[\w.-]+`. -/
def patImap : Pat :=
  litStr "IMAP" ++ [Atom.plus CharClass.digit, Atom.plus CharClass.wordDotDash]

/-- Compiled form of the source pattern `\d+\.\d+\.\d+` (MySQL). -/
def patMysql : Pat :=
  [Atom.plus CharClass.digit, Atom.lit '.', Atom.plus CharClass.digit,
   Atom.lit '.', Atom.plus CharClass.digit]

/-- Compiled form of the source pattern `\d+\.\d+` (PostgreSQL, VNC). -/
def patXY : Pat :=
  [Atom.plus CharClass.digit, Atom.lit '.', Atom.plus CharClass.digit]

/-- The seven hand-authored patterns passed to `extract_version` in the
source. -/
def sourcePatterns : List Pat :=
  [patDigitDot, patSsh, patApache, patNginx, patImap, patMysql, patXY]

/-- Backtracking step of a greedy `+`: `consumedRev` holds the
class-matched characters in reverse consumption order; the continuation
`k` tries the rest of the pattern, and on failure the most recently
consumed character is given back.  At least one character must stay
consumed. -/
def plusBacktrack (k : List Char → Option (List Char)) :
    List Char → List Char → Option (List Char)
  | [], _ => none
  | c :: cs, rest =>
    match k rest with
    | some t => some ((c :: cs).reverse ++ t)
    | none => plusBacktrack k cs (c :: rest)

/-- Match a pattern at the start of `s`, returning the consumed
characters.  `+` is greedy with backtracking, exactly the
leftmost-first semantics of the regex crate on these patterns. -/
def matchAtoms : Pat → List Char → Option (List Char)
  | [], _ => some []
  | Atom.lit _ :: _, [] => none
  | Atom.lit c :: ps, x :: xs =>
    if x = c then (matchAtoms ps xs).map (fun t => x :: t) else none
  | Atom.plus cc :: ps, s =>
    plusBacktrack (matchAtoms ps) (s.takeWhile cc.mem).reverse
      (s.dropWhile cc.mem)

/-- Scan left to right for the first position where the pattern
matches; return that leftmost match. -/
def findFirst (p : Pat) : List Char → Option (List Char)
  | [] => matchAtoms p []
  | c :: cs =>
    match matchAtoms p (c :: cs) with
    | some t => some t
    | none => findFirst p cs

/-- Embedding of `extract_version` (src/main.rs:248-254): apply the
compiled pattern to the response and return the text of the first
(leftmost) match, if any.  The Rust `Regex::new(pattern).unwrap()`
compile step is represented by the fixed `Pat` values above. -/
def extract_version (response : String) (p : Pat) : Option String :=
  (findFirst p response.data).map (fun t => String.mk t)

/-- Embedding of Rust `str::contains` on the decoded response: does
`sub` occur as a contiguous substring of `s`? -/
def containsAux (needle : List Char) : List Char → Bool
  | [] => needle.isEmpty
  | c :: cs => needle.isPrefixOf (c :: cs) || containsAux needle cs

/-- Rust `response.contains(sub)`. -/
def rcontains (s sub : String) : Bool := containsAux sub.data s.data

/-- Rust `response.starts_with(pre)`. -/
def rstarts_with (s pre : String) : Bool := pre.data.isPrefixOf s.data

/-- The NUL character filling the unread part of the 1024-byte buffer. -/
def nulChar : Char := Char.ofNat 0

/-- A string of `n` NUL characters. -/
def nulStr (n : Nat) : String := String.mk (List.replicate n nulChar)

/-- Embedding of `ftp_service_detection` (src/main.rs:85-92). -/
def ftp_service_detection (response : String) : String × Option String :=
  if rcontains response "220" && rcontains response "FTP" then
    ("FTP", extract_version response patDigitDot)
  else ("Unknown", none)

/-- Embedding of `ssh_service_detection` (src/main.rs:94-101). -/
def ssh_service_detection (response : String) : String × Option String :=
  if rcontains response "SSH" then
    ("SSH", extract_version response patSsh)
  else ("Unknown", none)

/-- Embedding of `smtp_service_detection` (src/main.rs:103-110). -/
def smtp_service_detection (response : String) : String × Option String :=
  if rcontains response "220" && rcontains response "SMTP" then
    ("SMTP", extract_version response patDigitDot)
  else ("Unknown", none)

/-- Embedding of `dns_service_detection` (src/main.rs:112-118): a fixed
two-NUL-byte prefix check on the decoded buffer. -/
def dns_service_detection (response : String) : String × Option String :=
  if rstarts_with response (String.mk [nulChar, nulChar]) then
    ("DNS", none)
  else ("Unknown", none)

/-- Embedding of `http_service_detection` (src/main.rs:120-134). -/
def http_service_detection (response : String) : String × Option String :=
  if rcontains response "HTTP" then
    if rcontains response "Apache" then
      ("Apache HTTP", extract_version response patApache)
    else if rcontains response "nginx" then
      ("nginx", extract_version response patNginx)
    else ("HTTP", none)
  else ("Unknown", none)

/-- Embedding of `pop3_service_detection` (src/main.rs:136-143). -/
def pop3_service_detection (response : String) : String × Option String :=
  if rcontains response "+OK" && rcontains response "POP3" then
    ("POP3", extract_version response patDigitDot)
  else ("Unknown", none)

/-- Embedding of `imap_service_detection` (src/main.rs:145-152). -/
def imap_service_detection (response : String) : String × Option String :=
  if rcontains response "* OK" && rcontains response "IMAP" then
    ("IMAP", extract_version response patImap)
  else ("Unknown", none)

/-- Embedding of `https_service_detection` (src/main.rs:154-168). -/
def https_service_detection (response : String) : String × Option String :=
  if rcontains response "HTTP" && rcontains response "SSL" then
    if rcontains response "Apache" then
      ("Apache HTTPS", extract_version response patApache)
    else if rcontains response "nginx" then
      ("nginx (SSL)", extract_version response patNginx)
    else ("HTTPS", none)
  else ("Unknown", none)

/-- Embedding of `smtps_service_detection` (src/main.rs:170-177). -/
def smtps_service_detection (response : String) : String × Option String :=
  if rcontains response "220" && rcontains response "SMTPS" then
    ("SMTPS", extract_version response patDigitDot)
  else ("Unknown", none)

/-- Embedding of `imaps_service_detection` (src/main.rs:179-186). -/
def imaps_service_detection (response : String) : String × Option String :=
  if rcontains response "* OK" && rcontains response "IMAP" &&
      rcontains response "SSL" then
    ("IMAPS", extract_version response patImap)
  else ("Unknown", none)

/-- Embedding of `pop3s_service_detection` (src/main.rs:188-195). -/
def pop3s_service_detection (response : String) : String × Option String :=
  if rcontains response "+OK" && rcontains response "POP3" &&
      rcontains response "SSL" then
    ("POP3S", extract_version response patDigitDot)
  else ("Unknown", none)

/-- Embedding of `pptp_service_detection` (src/main.rs:197-203): a fixed
four-NUL-byte prefix check. -/
def pptp_service_detection (response : String) : String × Option String :=
  if rstarts_with response (String.mk [nulChar, nulChar, nulChar, nulChar]) then
    ("PPTP", none)
  else ("Unknown", none)

/-- Embedding of `mysql_service_detection` (src/main.rs:205-212): prefix
`\x0a\x00\x00\x01`. -/
def mysql_service_detection (response : String) : String × Option String :=
  if rstarts_with response
      (String.mk [Char.ofNat 10, nulChar, nulChar, Char.ofNat 1]) then
    ("MySQL", extract_version response patMysql)
  else ("Unknown", none)

/-- Embedding of `rdp_service_detection` (src/main.rs:214-220): prefix
`\x03\x00\x00\x13`. -/
def rdp_service_detection (response : String) : String × Option String :=
  if rstarts_with response
      (String.mk [Char.ofNat 3, nulChar, nulChar, Char.ofNat 19]) then
    ("RDP", none)
  else ("Unknown", none)

/-- Embedding of `postgres_service_detection` (src/main.rs:222-229):
prefix `\x00\x00\x00\x08`. -/
def postgres_service_detection (response : String) : String × Option String :=
  if rstarts_with response
      (String.mk [nulChar, nulChar, nulChar, Char.ofNat 8]) then
    ("PostgreSQL", extract_version response patXY)
  else ("Unknown", none)

/-- Embedding of `vnc_service_detection` (src/main.rs:231-238). -/
def vnc_service_detection (response : String) : String × Option String :=
  if rstarts_with response "RFB " then
    ("VNC", extract_version response patXY)
  else ("Unknown", none)

/-- Embedding of `redis_service_detection` (src/main.rs:240-246). -/
def redis_service_detection (response : String) : String × Option String :=
  if rcontains response "+PONG" then
    ("Redis", none)
  else ("Unknown", none)

/-- Embedding of the per-port matcher dispatch of `scan_port`
(src/main.rs:52-71): the Rust `match target.port()` is a closed chain
of literal comparisons falling through to `("Unknown", None)`. -/
def service_detection (port : Nat) (response : String) : String × Option String :=
  if port = 21 then ftp_service_detection response
  else if port = 22 then ssh_service_detection response
  else if port = 25 then smtp_service_detection response
  else if port = 53 then dns_service_detection response
  else if port = 80 ∨ port = 8080 then http_service_detection response
  else if port = 110 then pop3_service_detection response
  else if port = 143 then imap_service_detection response
  else if port = 443 ∨ port = 8443 then https_service_detection response
  else if port = 465 then smtps_service_detection response
  else if port = 993 then imaps_service_detection response
  else if port = 995 then pop3s_service_detection response
  else if port = 1723 then pptp_service_detection response
  else if port = 3306 then mysql_service_detection response
  else if port = 3389 then rdp_service_detection response
  else if port = 5432 then postgres_service_detection response
  else if port = 5900 ∨ port = 5901 then vnc_service_detection response
  else if port = 6379 then redis_service_detection response
  else ("Unknown", none)

/-- Byte sequence of an ASCII probe literal. -/
def strBytes (s : String) : List Nat := s.data.map Char.toNat

/-- Embedding of the probe catalog of `scan_port` (src/main.rs:26-45):
the byte payload written after a successful connect, keyed by port;
unlisted ports get the empty payload (`_ => Vec::new()`). -/
def service_probe (port : Nat) : List Nat :=
  if port = 21 then strBytes "QUIT\r\n"
  else if port = 22 then strBytes "SSH-2.0-OpenSSH_7.4p1 Debian-10+deb9u7\r\n"
  else if port = 25 then strBytes "HELO example.com\r\n"
  else if port = 53 then [0, 0, 16, 0, 0, 0, 0, 0, 0, 0, 0, 0]
  else if port = 80 ∨ port = 8080 then
    strBytes "GET / HTTP/1.1\r\nHost: example.com\r\n\r\n"
  else if port = 110 then strBytes "QUIT\r\n"
  else if port = 143 then strBytes "a1 LOGOUT\r\n"
  else if port = 443 ∨ port = 8443 then
    strBytes "GET / HTTP/1.1\r\nHost: example.com\r\n\r\n"
  else if port = 465 then strBytes "QUIT\r\n"
  else if port = 993 then strBytes "a1 LOGOUT\r\n"
  else if port = 995 then strBytes "QUIT\r\n"
  else if port = 1723 then [0, 0, 0, 0, 0, 0, 0, 0]
  else if port = 3306 then
    [10, 0, 0, 1, 133, 166, 3, 0, 0, 0, 0, 1, 8, 0, 0, 0,
     0, 0, 0, 0, 0, 0, 0, 0, 0, 0, 0, 0, 0, 0, 0, 0]
  else if port = 3389 then
    [3, 0, 0, 19, 14, 224, 0, 0, 0, 0, 0, 1, 0, 8, 0, 3, 0, 0, 0]
  else if port = 5432 then [0, 0, 0, 8, 4, 210, 22, 47]
  else if port = 5900 ∨ port = 5901 then strBytes "RFB 003.008\n"
  else if port = 6379 then strBytes "PING\r\n"
  else []

/-- The ports that appear in both the probe catalog and the matcher
dispatch of `scan_port`. -/
def listedPorts : List Nat :=
  [21, 22, 25, 53, 80, 8080, 110, 143, 443, 8443, 465, 993, 995,
   1723, 3306, 3389, 5432, 5900, 5901, 6379]

/-- Embedding of the `ScanResult` struct (src/main.rs:12-19). -/
structure ScanResult where
  target : String
  port : Nat
  status : String
  service : Option String
  version : Option String
deriving DecidableEq

/-- Outcome of one connection attempt, the environment input of
`scan_port`: the `timeout(...)` wrapper yields a timeout, a connect
error, or a live stream; on a live stream the probe write may fail
(`writeOk`) and the single read either fails (`none`) or fills the
buffer with the decoded characters read (`some bs`). -/
inductive NetOutcome where
  | timeout
  | connectError
  | connected (writeOk : Bool) (readData : Option (List Char))
deriving DecidableEq

/-- The 1024-byte zero-initialised read buffer after the single `read`
(src/main.rs:48-50): a failed read leaves it all NUL; a successful read
of `bs` fills a prefix and leaves the rest NUL. -/
def bufferBytes : Option (List Char) → List Char
  | none => List.replicate 1024 nulChar
  | some bs => bs.take 1024 ++ List.replicate (1024 - bs.length) nulChar

/-- Embedding of `scan_port` (src/main.rs:21-83).  The connect attempt
is given by `net`; on timeout or connect error the result is `none`.
On connect the probe is looked up and written (its result is discarded
by the source's `let _ =`), the buffer is read and decoded in full, the
port's matcher is dispatched, and a result with status `"open"` is
always produced. -/
def scan_port (targetIp : String) (port : Nat) (net : NetOutcome) :
    Option ScanResult :=
  match net with
  | NetOutcome.connected _ r =>
    let _ := service_probe port
    let response := String.mk (bufferBytes r)
    let sv := service_detection port response
    some { target := targetIp, port := port, status := "open",
           service := some sv.1, version := sv.2 }
  | _ => none

/-- The port list `(start_port..=end_port).collect()` of `scan_ports`
(src/main.rs:257): empty when the range is inverted. -/
def portsList (startPort endPort : Nat) : List Nat :=
  (List.range (endPort + 1 - startPort)).map (fun i => startPort + i)

/-- The count printed by `scan_ports` (src/main.rs:258,268):
`ports.len() as u16`, a truncating cast to 16 bits. -/
def totalPortsReported (startPort endPort : Nat) : Nat :=
  (portsList startPort endPort).length % 65536

/-- Embedding of `scan_ports` (src/main.rs:256-271): one `scan_port`
per port of the inclusive range, keeping exactly the present results
(`filter_map` over the completion stream; the completion order is
scheduler-chosen, so the collection is modelled in port order, which
none of the verified properties distinguish).  The per-port network
behaviour is the explicit argument `net`. -/
def scan_ports (targetIp : String) (startPort endPort : Nat)
    (net : Nat → NetOutcome) : List ScanResult :=
  (portsList startPort endPort).filterMap
    (fun p => scan_port targetIp p (net p))

/-- Declarative matching relation for one pattern atom, following the
spec's description of the version patterns: a literal matches exactly
itself, and a class under `+` matches any nonempty run of class
characters. -/
inductive AtomMatches : Atom → List Char → Prop
  | lit (c : Char) : AtomMatches (Atom.lit c) [c]
  | plus (cc : CharClass) (l : List Char) (hne : l ≠ [])
      (hmem : ∀ c ∈ l, cc.mem c = true) : AtomMatches (Atom.plus cc) l

/-- Declarative matching relation for a whole pattern: the chunk splits
into consecutive pieces matched by the successive atoms. -/
inductive PatMatches : Pat → List Char → Prop
  | nil : PatMatches [] []
  | cons {a : Atom} {ps : Pat} {l1 l2 : List Char} :
      AtomMatches a l1 → PatMatches ps l2 → PatMatches (a :: ps) (l1 ++ l2)

/-- State of the bounded fan-out of `scan_ports`: ports not yet pulled
from the stream, spawned scan units not yet joined, and joined units. -/
structure SchedState where
  pending : List Nat
  inFlight : List Nat
  completed : List Nat
deriving DecidableEq

/-- Small-step semantics of
`stream::iter(ports).map(spawn).buffer_unordered(num_threads)`
(src/main.rs:260-264): the lazy `map` spawns a unit only when
`buffer_unordered` pulls it, which it does only while fewer than `cap`
spawned units are unjoined; any in-flight unit may complete. -/
inductive SchedStep (cap : Nat) : SchedState → SchedState → Prop
  | spawn (p : Nat) (rest fl d : List Nat) (h : fl.length < cap) :
      SchedStep cap ⟨p :: rest, fl, d⟩ ⟨rest, p :: fl, d⟩
  | complete (p : Nat) (pend fl d : List Nat) (h : p ∈ fl) :
      SchedStep cap ⟨pend, fl, d⟩ ⟨pend, fl.erase p, p :: d⟩

/-- The scheduler states reachable from the start of a range scan over
`ports` under concurrency cap `cap`. -/
def SchedReachable (cap : Nat) (ports : List Nat) (st : SchedState) : Prop :=
  Relation.ReflTransGen (SchedStep cap) ⟨ports, [], []⟩ st

/-! ### Verification of the backtracking matcher against the
declarative matching relation -/

theorem plusBacktrack_sound (k : List Char → Option (List Char)) :
    ∀ (consumedRev rest r : List Char),
      plusBacktrack k consumedRev rest = some r →
      ∃ a b t, consumedRev = b ++ a ∧ a ≠ [] ∧
        k (b.reverse ++ rest) = some t ∧ r = a.reverse ++ t := by
  intro consumedRev
  induction consumedRev with
  | nil => intro rest r h; simp [plusBacktrack] at h
  | cons c cs ih =>
    intro rest r h
    rw [plusBacktrack] at h
    cases hk : k rest with
    | some t =>
      rw [hk] at h
      refine ⟨c :: cs, [], t, by simp, by simp, by simpa using hk, ?_⟩
      simpa using h.symm
    | none =>
      rw [hk] at h
      obtain ⟨a, b, t, hcs, hane, hkb, hr⟩ := ih (c :: rest) r h
      refine ⟨a, c :: b, t, by simp [hcs], hane, ?_, hr⟩
      simpa [List.append_assoc] using hkb

theorem plusBacktrack_complete (k : List Char → Option (List Char)) :
    ∀ (b a rest : List Char), a ≠ [] → (k (b.reverse ++ rest)).isSome →
      (plusBacktrack k (b ++ a) rest).isSome := by
  intro b
  induction b with
  | nil =>
    intro a rest hane hk
    cases a with
    | nil => exact absurd rfl hane
    | cons c cs =>
      rw [List.nil_append, plusBacktrack]
      simp only [List.reverse_nil, List.nil_append] at hk
      obtain ⟨t, ht⟩ := Option.isSome_iff_exists.mp hk
      rw [ht]
      simp
  | cons x xs ih =>
    intro a rest hane hk
    rw [List.cons_append, plusBacktrack]
    cases hkr : k rest with
    | some t => simp
    | none => exact ih a (x :: rest) hane (by simpa [List.append_assoc] using hk)

theorem matchAtoms_sound : ∀ (p : Pat) (s t : List Char),
    matchAtoms p s = some t → PatMatches p t ∧ t <+: s := by
  intro p
  induction p with
  | nil =>
    intro s t h
    rw [matchAtoms] at h
    cases h
    exact ⟨PatMatches.nil, ⟨s, rfl⟩⟩
  | cons a ps ih =>
    cases a with
    | lit c =>
      intro s t h
      cases s with
      | nil => rw [matchAtoms] at h; cases h
      | cons x xs =>
        rw [matchAtoms] at h
        by_cases hx : x = c
        · rw [if_pos hx] at h
          rw [Option.map_eq_some'] at h
          obtain ⟨t2, hm, rfl⟩ := h
          obtain ⟨hpm, u, hu⟩ := ih xs t2 hm
          subst hx
          exact ⟨PatMatches.cons (AtomMatches.lit x) hpm, ⟨u, by simp [hu]⟩⟩
        · rw [if_neg hx] at h; cases h
    | plus cc =>
      intro s t h
      rw [matchAtoms] at h
      obtain ⟨a2, b, t2, hrev, hane, hk, rfl⟩ :=
        plusBacktrack_sound (matchAtoms ps) _ _ _ h
      obtain ⟨hpm, u, hu⟩ := ih _ t2 hk
      have htw : s.takeWhile cc.mem = a2.reverse ++ b.reverse := by
        have h2 := congrArg List.reverse hrev
        simpa [List.reverse_append] using h2
      have hmem : ∀ c ∈ a2.reverse, cc.mem c = true := by
        intro c hc
        have : c ∈ s.takeWhile cc.mem := by
          rw [htw]; exact List.mem_append_left _ hc
        exact List.mem_takeWhile_imp this
      have hne : a2.reverse ≠ [] := by simpa using hane
      refine ⟨PatMatches.cons (AtomMatches.plus cc a2.reverse hne hmem) hpm,
        ⟨u, ?_⟩⟩
      have hs : s.takeWhile cc.mem ++ s.dropWhile cc.mem = s :=
        List.takeWhile_append_dropWhile cc.mem s
      calc (a2.reverse ++ t2) ++ u = a2.reverse ++ (t2 ++ u) := by
            rw [List.append_assoc]
        _ = a2.reverse ++ (b.reverse ++ s.dropWhile cc.mem) := by rw [hu]
        _ = (a2.reverse ++ b.reverse) ++ s.dropWhile cc.mem := by
            rw [List.append_assoc]
        _ = s.takeWhile cc.mem ++ s.dropWhile cc.mem := by rw [htw]
        _ = s := hs

theorem all_takeWhile_of_all {q : Char → Bool} :
    ∀ (l s : List Char), l <+: s → (∀ c ∈ l, q c = true) →
      l <+: s.takeWhile q := by
  intro l
  induction l with
  | nil => intro s _ _; exact ⟨s.takeWhile q, by simp⟩
  | cons c cs ih =>
    intro s hpre hall
    obtain ⟨u, hu⟩ := hpre
    cases s with
    | nil => simp at hu
    | cons x xs =>
      rw [List.cons_append] at hu
      obtain ⟨rfl, hu2⟩ : c = x ∧ cs ++ u = xs := by
        constructor
        · exact (List.cons.injEq _ _ _ _ ▸ hu).1
        · exact (List.cons.injEq _ _ _ _ ▸ hu).2
      have hqc : q c = true := hall c (by simp)
      rw [List.takeWhile_cons, hqc]
      obtain ⟨v, hv⟩ := ih xs ⟨u, hu2⟩ (fun d hd => hall d (by simp [hd]))
      exact ⟨v, by simp [hv]⟩

theorem matchAtoms_complete : ∀ (p : Pat) (t s : List Char),
    PatMatches p t → t <+: s → (matchAtoms p s).isSome := by
  intro p
  induction p with
  | nil => intro t s _ _; rw [matchAtoms]; simp
  | cons a ps ih =>
    intro t s hm hpre
    cases hm with
    | cons ha hps =>
      rename_i l1 l2
      cases ha with
      | lit c =>
        obtain ⟨u, hu⟩ := hpre
        cases s with
        | nil => simp at hu
        | cons x xs =>
          rw [List.cons_append, List.cons_append] at hu
          obtain ⟨rfl, hu2⟩ : c = x ∧ l2 ++ u = xs := by
            constructor
            · exact (List.cons.injEq _ _ _ _ ▸ hu).1
            · exact (List.cons.injEq _ _ _ _ ▸ hu).2
          rw [matchAtoms, if_pos rfl]
          have := ih l2 xs hps ⟨u, hu2⟩
          obtain ⟨t2, ht2⟩ := Option.isSome_iff_exists.mp this
          rw [ht2]
          simp
      | plus cc l1 hne hmem =>
        have hl1pre : l1 <+: s := by
          obtain ⟨u, hu⟩ := hpre
          exact ⟨l2 ++ u, by rw [← List.append_assoc]; exact hu⟩
        have htw : l1 <+: s.takeWhile cc.mem :=
          all_takeWhile_of_all l1 s hl1pre hmem
        obtain ⟨mid, hmid⟩ := htw
        have hrev : (s.takeWhile cc.mem).reverse = mid.reverse ++ l1.reverse := by
          rw [← hmid, List.reverse_append]
        have hl2 : l2 <+: mid ++ s.dropWhile cc.mem := by
          obtain ⟨u, hu⟩ := hpre
          have hs : s.takeWhile cc.mem ++ s.dropWhile cc.mem = s :=
            List.takeWhile_append_dropWhile cc.mem s
          have h1 : l1 ++ (mid ++ s.dropWhile cc.mem) = s := by
            rw [← List.append_assoc, hmid]; exact hs
          have h2 : l1 ++ (l2 ++ u) = s := by
            rw [← List.append_assoc]; exact hu
          exact ⟨u, List.append_cancel_left (h1.trans h2.symm) ▸ rfl⟩
        have hk : (matchAtoms ps ((mid.reverse).reverse ++
            s.dropWhile cc.mem)).isSome := by
          rw [List.reverse_reverse]
          exact ih l2 _ hps hl2
        rw [matchAtoms, hrev]
        exact plusBacktrack_complete (matchAtoms ps) mid.reverse l1.reverse _
          (by simpa using hne) hk

theorem findFirst_sound : ∀ (s : List Char) (p : Pat) (t : List Char),
    findFirst p s = some t →
    ∃ i, matchAtoms p (s.drop i) = some t ∧
      ∀ j < i, matchAtoms p (s.drop j) = none := by
  intro s
  induction s with
  | nil =>
    intro p t h
    rw [findFirst] at h
    exact ⟨0, by simpa using h, by omega⟩
  | cons c cs ih =>
    intro p t h
    rw [findFirst] at h
    cases hm : matchAtoms p (c :: cs) with
    | some t2 =>
      rw [hm] at h
      cases h
      exact ⟨0, by simpa using hm, by omega⟩
    | none =>
      rw [hm] at h
      obtain ⟨i, hi, hlt⟩ := ih p t h
      refine ⟨i + 1, by simpa using hi, ?_⟩
      intro j hj
      cases j with
      | zero => simpa using hm
      | succ j2 =>
        have := hlt j2 (by omega)
        simpa using this

theorem findFirst_none : ∀ (s : List Char) (p : Pat),
    findFirst p s = none → ∀ i, matchAtoms p (s.drop i) = none := by
  intro s
  induction s with
  | nil =>
    intro p h i
    rw [findFirst] at h
    simpa using h
  | cons c cs ih =>
    intro p h i
    rw [findFirst] at h
    cases hm : matchAtoms p (c :: cs) with
    | some t2 => rw [hm] at h; cases h
    | none =>
      rw [hm] at h
      cases i with
      | zero => simpa using hm
      | succ i2 => simpa using ih p h i2

/-! ### Bridge lemmas for `scan_port` -/

theorem scan_port_timeout (ip : String) (port : Nat) :
    scan_port ip port NetOutcome.timeout = none := rfl

theorem scan_port_connectError (ip : String) (port : Nat) :
    scan_port ip port NetOutcome.connectError = none := rfl

theorem scan_port_connected_eq (ip : String) (port : Nat) (w : Bool)
    (r : Option (List Char)) :
    scan_port ip port (NetOutcome.connected w r) =
      some { target := ip, port := port, status := "open",
             service := some (service_detection port
               (String.mk (bufferBytes r))).1,
             version := (service_detection port
               (String.mk (bufferBytes r))).2 } := rfl

/-! ### Claim theorems -/

/-- C1: `scan_port` returns a `ScanResult` iff the connection attempt
succeeds within the timeout; on connect timeout or connect error it
returns `none`, and on connect success it always returns a result with
status `"open"`, a failed probe write is invisible to the result, and a
failed response read yields the same result as a successful read of
zero bytes (the response is treated as empty). -/
theorem scan_port_result_iff_connect (ip : String) (port : Nat) :
    (∀ net : NetOutcome, (scan_port ip port net).isSome ↔
      ∃ w r, net = NetOutcome.connected w r) ∧
    (∀ (w : Bool) (r : Option (List Char)) (res : ScanResult),
      scan_port ip port (NetOutcome.connected w r) = some res →
      res.status = "open") ∧
    (∀ (w w2 : Bool) (r : Option (List Char)),
      scan_port ip port (NetOutcome.connected w r) =
        scan_port ip port (NetOutcome.connected w2 r)) ∧
    (∀ w : Bool, scan_port ip port (NetOutcome.connected w none) =
      scan_port ip port (NetOutcome.connected w (some []))) := by
  refine ⟨?_, ?_, ?_, ?_⟩
  · intro net
    cases net with
    | timeout => rw [scan_port_timeout]; simp
    | connectError => rw [scan_port_connectError]; simp
    | connected w r =>
      rw [scan_port_connected_eq]
      simp only [Option.isSome_some, true_iff]
      exact ⟨w, r, rfl⟩
  · intro w r res h
    rw [scan_port_connected_eq, Option.some_inj] at h
    rw [← h]
  · intro w w2 r
    rfl
  · intro w
    rfl

/-- C1 witness: at port 21 with a live stream and an empty read, a
result is produced and carries status `"open"`. -/
theorem scan_port_result_iff_connect_witness :
    (∃ w r, NetOutcome.connected true (some ([] : List Char)) =
      NetOutcome.connected w r) ∧
    (ScanResult.mk "127.0.0.1" 21 "open"
      (some (service_detection 21 (String.mk (bufferBytes none))).1)
      (service_detection 21 (String.mk (bufferBytes none))).2).status =
      "open" :=
  ⟨((scan_port_result_iff_connect "127.0.0.1" 21).1
      (NetOutcome.connected true (some []))).mp (by decide),
   (scan_port_result_iff_connect "127.0.0.1" 21).2.1 true none _
      (scan_port_connected_eq "127.0.0.1" 21 true none)⟩

/-- C2 counterexample: on port 21 the response
`"220 FTP Server ready 3.4.1\r\n"` does NOT classify with version
`"3.4.1"`: the first (leftmost) match of the pattern `[\d.]+` in that
response is the status code `"220"`, so the classification is
`("FTP", some "220")`. -/
theorem ftp_341_response_cex :
    service_detection 21 "220 FTP Server ready 3.4.1\r\n" =
      ("FTP", some "220") ∧
    (("FTP", some "220") : String × Option String) ≠
      ("FTP", some "3.4.1") := by
  constructor
  · decide
  · decide

/-- C2 amended: the FTP matcher applied to
`"220 FTP Server ready 3.4.1\r\n"` on port 21 classifies it as service
`"FTP"` with version `some "220"`, the version being the first match of
the pattern `[\d.]+` in the response, which is the `220` status code
rather than `3.4.1`. -/
theorem ftp_341_response_classification :
    service_detection 21 "220 FTP Server ready 3.4.1\r\n" =
      ("FTP", some "220") ∧
    extract_version "220 FTP Server ready 3.4.1\r\n" patDigitDot =
      some "220" := by
  constructor
  · decide
  · decide

theorem portsList_length (s e : Nat) : (portsList s e).length = e + 1 - s := by
  simp only [portsList, List.length_map, List.length_range]

theorem totalPortsReported_eq (s e : Nat) :
    totalPortsReported s e = (e + 1 - s) % 65536 := by
  rw [totalPortsReported, portsList_length]

/-- C3 counterexample: for the full port range `(0, 65535)` the number
of scheduled units is `65536 = end - start + 1`, but the reported
total-ports count is `ports.len() as u16 = 0`, not `end - start + 1`. -/
theorem scan_ports_count_cex :
    (portsList 0 65535).length = 65535 - 0 + 1 ∧
    totalPortsReported 0 65535 = 0 ∧
    totalPortsReported 0 65535 ≠ 65535 - 0 + 1 := by
  refine ⟨?_, ?_, ?_⟩
  · rw [portsList_length]
  · rw [totalPortsReported_eq]
  · rw [totalPortsReported_eq]
    norm_num

/-- C3 amended: for every u16 range with `start ≤ end`, `scan_ports`
schedules exactly `end - start + 1` scan units, and the reported
total-ports count is `(end - start + 1) mod 2^16`, which equals
`end - start + 1` for every range except the full range `(0, 65535)`,
where the `as u16` cast truncates `65536` to `0`. -/
theorem scan_ports_count (s e : Nat) (hse : s ≤ e) (he : e ≤ 65535) :
    (portsList s e).length = e - s + 1 ∧
    totalPortsReported s e = (e - s + 1) % 65536 ∧
    (¬(s = 0 ∧ e = 65535) → totalPortsReported s e = e - s + 1) := by
  have hlen : (portsList s e).length = e - s + 1 := by
    rw [portsList_length]
    omega
  have hm : e + 1 - s = e - s + 1 := by omega
  refine ⟨hlen, ?_, ?_⟩
  · rw [totalPortsReported_eq, hm]
  · intro hne
    rw [totalPortsReported_eq, hm]
    exact Nat.mod_eq_of_lt (by omega)

/-- C3 witness: the range `(1, 1024)` schedules 1024 units and reports
1024. -/
theorem scan_ports_count_witness :
    (portsList 1 1024).length = 1024 ∧ totalPortsReported 1 1024 = 1024 := by
  have h := scan_ports_count 1 1024 (by norm_num) (by norm_num)
  exact ⟨by simpa using h.1, by simpa using h.2.2 (by norm_num)⟩

/-- C4: every `ScanResult` in the collection returned by `scan_ports`
over `[startPort, endPort]` has its port within the inclusive range and
its status equal to `"open"`. -/
theorem scan_ports_results_in_range (ip : String) (s e : Nat)
    (net : Nat → NetOutcome) (res : ScanResult)
    (hmem : res ∈ scan_ports ip s e net) :
    s ≤ res.port ∧ res.port ≤ e ∧ res.status = "open" := by
  rw [scan_ports, List.mem_filterMap] at hmem
  obtain ⟨p, hp, hsp⟩ := hmem
  have hport : s ≤ p ∧ p ≤ e := by
    rw [portsList, List.mem_map] at hp
    obtain ⟨i, hi, rfl⟩ := hp
    rw [List.mem_range] at hi
    omega
  cases hnet : net p with
  | timeout => rw [hnet, scan_port_timeout] at hsp; cases hsp
  | connectError => rw [hnet, scan_port_connectError] at hsp; cases hsp
  | connected w r =>
    rw [hnet, scan_port_connected_eq, Option.some_inj] at hsp
    rw [← hsp]
    exact ⟨hport.1, hport.2, rfl⟩

/-- C4 witness: a singleton scan of port 1 that connects and reads
nothing emits one result, whose port is 1 and status `"open"`. -/
theorem scan_ports_results_in_range_witness :
    1 ≤ (ScanResult.mk "127.0.0.1" 1 "open" (some "Unknown") none).port ∧
    (ScanResult.mk "127.0.0.1" 1 "open" (some "Unknown") none).port ≤ 1 ∧
    (ScanResult.mk "127.0.0.1" 1 "open" (some "Unknown") none).status =
      "open" :=
  scan_ports_results_in_range "127.0.0.1" 1 1
    (fun _ => NetOutcome.connected true none)
    (ScanResult.mk "127.0.0.1" 1 "open" (some "Unknown") none) (by decide)

/-- C5: every port absent from the probe catalog / matcher registry
(such as 9999) gets the empty probe payload, and its classification is
`("Unknown", none)` for every response. -/
theorem unlisted_port_unknown (port : Nat) (hport : port ∉ listedPorts)
    (response : String) :
    service_probe port = [] ∧
    service_detection port response = ("Unknown", none) := by
  simp only [listedPorts, List.mem_cons, List.mem_singleton, not_or,
    List.not_mem_nil] at hport
  obtain ⟨h1, h2, h3, h4, h5, h6, h7, h8, h9, h10, h11, h12, h13, h14,
    h15, h16, h17, h18, h19, h20⟩ := hport
  constructor
  · simp [service_probe, h1, h2, h3, h4, h5, h6, h7, h8, h9, h10, h11,
      h12, h13, h14, h15, h16, h17, h18, h19, h20]
  · simp [service_detection, h1, h2, h3, h4, h5, h6, h7, h8, h9, h10,
      h11, h12, h13, h14, h15, h16, h17, h18, h19, h20]

/-- C5 witness: port 9999 with an empty response. -/
theorem unlisted_port_unknown_witness :
    service_probe 9999 = [] ∧
    service_detection 9999 "" = ("Unknown", none) :=
  unlisted_port_unknown 9999 (by decide) ""

/-- C6: matcher branch precedence is fixed per port: on port 80 or 8080
a response containing `"HTTP"`, `"Apache"` and `"nginx"` classifies as
`"Apache HTTP"` (the Apache branch precedes the nginx branch), and on
port 443 or 8443 the HTTPS classification requires both `"HTTP"` and
`"SSL"`, so a plain-HTTP response yields `("Unknown", none)`. -/
theorem matcher_precedence (response : String) :
    (rcontains response "HTTP" = true → rcontains response "Apache" = true →
      rcontains response "nginx" = true →
      (service_detection 80 response).1 = "Apache HTTP" ∧
      (service_detection 8080 response).1 = "Apache HTTP") ∧
    (rcontains response "HTTP" = true → rcontains response "SSL" = false →
      service_detection 443 response = ("Unknown", none) ∧
      service_detection 8443 response = ("Unknown", none)) := by
  constructor
  · intro hH hA _hn
    constructor <;>
      simp [service_detection, http_service_detection, hH, hA]
  · intro hH hS
    constructor <;>
      simp [service_detection, https_service_detection, hS]

/-- C6 witness: a response holding all three HTTP markers classifies as
Apache HTTP on port 80, and a plain-HTTP response on port 443 is
Unknown. -/
theorem matcher_precedence_witness :
    (service_detection 80 "HTTP Apache nginx").1 = "Apache HTTP" ∧
    service_detection 443 "HTTP/1.1 200 OK" = ("Unknown", none) :=
  ⟨((matcher_precedence "HTTP Apache nginx").1 (by decide) (by decide)
      (by decide)).1,
   ((matcher_precedence "HTTP/1.1 200 OK").2 (by decide) (by decide)).1⟩

/-- C7: for every fixed hand-authored pattern, `extract_version`
returns the text of the first full match: when it returns `some v`, the
match `v` is a declarative match of the pattern at some position of the
response and no earlier position carries any match, and it returns
`none` exactly when no position of the response matches the pattern.
Totality of the Lean function reflects that a non-matching pattern
never fails the caller. -/
theorem extract_version_first_match (p : Pat) (_hp : p ∈ sourcePatterns)
    (response : String) :
    (∀ v, extract_version response p = some v →
      ∃ i, PatMatches p v.data ∧ v.data <+: response.data.drop i ∧
        ∀ j, j < i → ¬ ∃ u, PatMatches p u ∧ u <+: response.data.drop j) ∧
    (extract_version response p = none →
      ¬ ∃ i u, PatMatches p u ∧ u <+: response.data.drop i) := by
  constructor
  · intro v hv
    rw [extract_version, Option.map_eq_some'] at hv
    obtain ⟨t, hf, rfl⟩ := hv
    obtain ⟨i, hi, hnone⟩ := findFirst_sound response.data p t hf
    obtain ⟨hpm, hpre⟩ := matchAtoms_sound p _ t hi
    refine ⟨i, hpm, hpre, ?_⟩
    rintro j hj ⟨u, hu1, hu2⟩
    have hsome := matchAtoms_complete p u _ hu1 hu2
    rw [hnone j hj] at hsome
    cases hsome
  · intro hn
    rintro ⟨i, u, hu1, hu2⟩
    rw [extract_version, Option.map_eq_none'] at hn
    have hsome := matchAtoms_complete p u _ hu1 hu2
    rw [findFirst_none response.data p hn i] at hsome
    cases hsome

/-- C7 witness: on the FTP banner the pattern `[\d.]+` yields `"220"`,
a match at a position before which no match exists. -/
theorem extract_version_first_match_witness :
    ∃ i, PatMatches patDigitDot ("220" : String).data ∧
      ("220" : String).data <+:
        ("220 FTP Server ready 3.4.1\r\n" : String).data.drop i ∧
      ∀ j, j < i → ¬ ∃ u, PatMatches patDigitDot u ∧
        u <+: ("220 FTP Server ready 3.4.1\r\n" : String).data.drop j :=
  (extract_version_first_match patDigitDot (by decide)
    "220 FTP Server ready 3.4.1\r\n").1 "220" (by decide)

/-- C8: an inverted range (`startPort > endPort`) yields the empty
result collection, with no error (the embedding is a total function). -/
theorem scan_ports_empty_on_inverted_range (ip : String) (s e : Nat)
    (net : Nat → NetOutcome) (h : e < s) :
    scan_ports ip s e net = [] := by
  have h0 : e + 1 - s = 0 := by omega
  rw [scan_ports, portsList, h0]
  rfl

/-- C8 witness: the range `(2, 1)` scans nothing. -/
theorem scan_ports_empty_on_inverted_range_witness :
    scan_ports "127.0.0.1" 2 1 (fun _ => NetOutcome.timeout) = [] :=
  scan_ports_empty_on_inverted_range "127.0.0.1" 2 1
    (fun _ => NetOutcome.timeout) (by decide)

/-- C9: in every scheduler state reachable during a range scan, the
number of scan units in flight never exceeds the concurrency cap: the
lazy spawn of `buffer_unordered` admits a new unit only while fewer
than `cap` are outstanding, and completions only shrink the in-flight
set. -/
theorem concurrency_cap_respected (cap : Nat) (ports : List Nat)
    (st : SchedState) (h : SchedReachable cap ports st) :
    st.inFlight.length ≤ cap := by
  have h2 : Relation.ReflTransGen (SchedStep cap) ⟨ports, [], []⟩ st := h
  clear h
  induction h2 with
  | refl => simp
  | tail _hreach hstep ih =>
    cases hstep with
    | spawn p rest fl d hlt => simpa using hlt
    | complete p pend fl d hmem =>
      calc (fl.erase p).length ≤ fl.length := List.length_erase_le p fl
        _ ≤ cap := ih

/-- C9 witness: after spawning the first of three ports under cap 2,
one unit is in flight, within the cap. -/
theorem concurrency_cap_respected_witness :
    (SchedState.mk [2, 3] [1] []).inFlight.length ≤ 2 :=
  concurrency_cap_respected 2 [1, 2, 3] ⟨[2, 3], [1], []⟩
    (Relation.ReflTransGen.single
      (SchedStep.spawn 1 [2, 3] [] [] (by simp)))

/-- C10 counterexample: after a successful connect with no bytes read,
port 5432 does NOT classify as PostgreSQL: the all-zero decoded buffer
fails the `\x00\x00\x00\x08` prefix check (its fourth byte is `0x00`,
not `0x08`), so the scan result carries `("Unknown", none)`. -/
theorem zero_read_postgres_cex :
    (scan_port "10.0.0.1" 5432 (NetOutcome.connected true none)).map
        (fun r => (r.service, r.version)) = some (some "Unknown", none) ∧
    (some ("Unknown" : String), (none : Option String)) ≠
      (some "PostgreSQL", none) := by
  constructor
  · rw [scan_port_connected_eq]
    have h : service_detection 5432 (String.mk (bufferBytes none)) =
        ("Unknown", none) := by decide
    rw [Option.map_some']
    rw [h]
  · decide

/-- C10 amended: after a successful connect with no bytes read, the
all-zero 1024-byte buffer satisfies the two-zero-byte DNS prefix and
the four-zero-byte PPTP prefix, so port 53 classifies as
`("DNS", none)` and port 1723 as `("PPTP", none)`; port 5432 classifies
as `("Unknown", none)`, since the PostgreSQL prefix requires a fourth
byte `0x08` which the zero buffer lacks. -/
theorem zero_read_prefix_classifications (ip : String) (w : Bool) :
    (scan_port ip 53 (NetOutcome.connected w none)).map
        (fun r => (r.service, r.version)) = some (some "DNS", none) ∧
    (scan_port ip 1723 (NetOutcome.connected w none)).map
        (fun r => (r.service, r.version)) = some (some "PPTP", none) ∧
    (scan_port ip 5432 (NetOutcome.connected w none)).map
        (fun r => (r.service, r.version)) = some (some "Unknown", none) := by
  refine ⟨?_, ?_, ?_⟩
  · rw [scan_port_connected_eq, Option.map_some']
    have h : service_detection 53 (String.mk (bufferBytes none)) =
        ("DNS", none) := by decide
    rw [h]
  · rw [scan_port_connected_eq, Option.map_some']
    have h : service_detection 1723 (String.mk (bufferBytes none)) =
        ("PPTP", none) := by decide
    rw [h]
  · rw [scan_port_connected_eq, Option.map_some']
    have h : service_detection 5432 (String.mk (bufferBytes none)) =
        ("Unknown", none) := by decide
    rw [h]

end RPoke
